import Mathlib

/-!
Shallow embedding of the CORS forwarding proxy in `src/proxy-server.py`
(repository AayushGour/chroma-viewer) and proofs about the claims of its
specification.

Conventions of the embedding:
* Header sequences are `List (String × String)` in wire order, duplicates and
  original casing preserved (this models `email.message.Message`, the type of
  `self.headers` in `BaseHTTPRequestHandler`, whose `items()` returns every
  header in order with original casing).
* Bodies and byte streams are `String` (bytes are treated opaquely; every byte
  is one character).  Python `int(...)` and `str.lower` / `str.capitalize` are
  modelled for ASCII data, which is what HTTP header names and decimal
  `Content-Length` values consist of.
* The response a handler emits is modelled as the status code, the list of
  header pairs the handler code itself passes to `send_header` (in call
  order), and the body bytes written to `wfile`.
-/

/-- Python `str.lower` for ASCII strings (models `header_name.lower()` at
lines 84 and 97 of `src/proxy-server.py`). -/
def pyLower (s : String) : String :=
  ⟨s.data.map Char.toLower⟩

/-- Python `str.capitalize` for ASCII strings: first character upper-cased,
every other character lower-cased.  `urllib.request.Request.add_header`
normalises header names with this function before storing them. -/
def pyCapitalize (s : String) : String :=
  match s.data with
  | [] => ""
  | c :: cs => ⟨Char.toUpper c :: cs.map Char.toLower⟩

/-- Lookup of a header value, case-insensitive on the name, first match wins;
models `email.message.Message.get` (used as `self.headers.get("Content-Length")`
at line 66 of `src/proxy-server.py`). -/
def getHeaderCI (hs : List (String × String)) (name : String) : Option String :=
  (hs.find? (fun p => pyLower p.1 == pyLower name)).map Prod.snd

/-- Exclusion test of line 84 of `src/proxy-server.py`:
`header_name.lower() not in ["host", "origin", "referer"]` (negated). -/
def excludedOutName (n : String) : Bool :=
  pyLower n == "host" || pyLower n == "origin" || pyLower n == "referer"

/-- Hop-by-hop test of line 97 of `src/proxy-server.py`:
`header_name.lower() not in ["transfer-encoding", "connection"]` (negated). -/
def isHopByHop (n : String) : Bool :=
  pyLower n == "transfer-encoding" || pyLower n == "connection"

/-- Model of `urllib.request.Request.add_header(key, val)`: the header dict is
updated at key `key.capitalize()`, replacing any existing entry for that key in
place (Python dict update keeps the original position) and appending at the end
otherwise.  Last write wins; duplicates cannot coexist. -/
def addHeader (hs : List (String × String)) (name value : String) :
    List (String × String) :=
  if hs.any (fun p => p.1 == pyCapitalize name) then
    hs.map (fun p => if p.1 = pyCapitalize name then (pyCapitalize name, value) else p)
  else
    hs ++ [(pyCapitalize name, value)]

/-- Loop of lines 83-85 of `src/proxy-server.py`, generalised over the
accumulated header dict: every inbound header whose lower-cased name is not in
`["host", "origin", "referer"]` is passed to `req.add_header`. -/
def buildOut (acc : List (String × String)) :
    List (String × String) → List (String × String)
  | [] => acc
  | q :: rest =>
    if excludedOutName q.1 then buildOut acc rest
    else buildOut (addHeader acc q.1 q.2) rest

/-- State of `req.headers` — the capitalize-keyed dict maintained by
`Request.add_header` — after the loop of lines 83-85 of `src/proxy-server.py`
has run on the inbound headers.  This is an intermediate: before the request
is serialised, `AbstractHTTPHandler.do_open` re-cases every name with
`str.title()`; the mapping the origin receives is `wireOutboundHeaders`. -/
def buildOutboundHeaders (hs : List (String × String)) : List (String × String) :=
  buildOut [] hs

/-- ASCII whitespace test matching the characters Python `int(str)` strips
from both ends of its argument. -/
def isPySpace (c : Char) : Bool :=
  c == ' ' || c == '\t' || c == '\n' || c == '\x0d' || c == '\x0b' || c == '\x0c'

/-- Digit test for ASCII decimal digits. -/
def isDecDigit (c : Char) : Bool :=
  '0' ≤ c && c ≤ '9'

/-- Accumulation of a digit run in which a single underscore may stand between
two digits (the grammar of Python integer literals accepted by `int(str)`). -/
def pyDigitsGo (acc : Nat) : List Char → Option Nat
  | [] => some acc
  | '_' :: c :: rest =>
    if isDecDigit c then pyDigitsGo (acc * 10 + (c.toNat - 48)) rest else none
  | ['_'] => none
  | c :: rest =>
    if isDecDigit c then pyDigitsGo (acc * 10 + (c.toNat - 48)) rest else none

/-- Parsing of the digit part of a Python integer literal: at least one digit,
single underscores allowed only between digits. -/
def pyDigits : List Char → Option Nat
  | [] => none
  | c :: rest =>
    if isDecDigit c then pyDigitsGo (c.toNat - 48) rest else none

/-- Model of Python `int(str)` for ASCII input: surrounding whitespace
stripped, an optional single sign, then a nonempty digit run with optional
single underscores between digits.  `none` models `int` raising `ValueError`
(for example on `""`, `"abc"`, `"1.5"`). -/
def pyParseInt (s : String) : Option Int :=
  let cs := ((s.data.dropWhile isPySpace).reverse.dropWhile isPySpace).reverse
  match cs with
  | [] => none
  | '+' :: rest => (pyDigits rest).map (fun n => (n : Int))
  | '-' :: rest => (pyDigits rest).map (fun n => -(n : Int))
  | _ => (pyDigits cs).map (fun n => (n : Int))

/-- Model of `self.rfile.read(n)` at line 70 of `src/proxy-server.py`: the
readable stream content is `rfile`; a nonnegative size reads up to that many
bytes, a negative size reads to end of stream. -/
def pyRead (rfile : String) (n : Int) : String :=
  if n < 0 then rfile else ⟨rfile.data.take n.toNat⟩

/-- Hexadecimal digit characters for `\uXXXX` escapes. -/
def hexDigitChar (n : Nat) : Char :=
  if n < 10 then Char.ofNat (48 + n) else Char.ofNat (87 + (n % 16))

/-- Four-digit lowercase hexadecimal rendering of a code point below 0x10000,
as produced by `json.dumps` escapes. -/
def hex4 (n : Nat) : String :=
  ⟨[hexDigitChar (n / 4096 % 16), hexDigitChar (n / 256 % 16),
    hexDigitChar (n / 16 % 16), hexDigitChar (n % 16)]⟩

/-- Escape of one character under `json.dumps` with its default
`ensure_ascii=True`: printable ASCII other than quote and backslash is kept,
the common control characters use their short escapes, and every other
character below 0x10000 becomes `\uXXXX`. -/
def jsonEscapeChar (c : Char) : String :=
  if c == '"' then "\\\""
  else if c == '\\' then "\\\\"
  else if c == '\n' then "\\n"
  else if c == '\x0d' then "\\r"
  else if c == '\t' then "\\t"
  else if c == '\x08' then "\\b"
  else if c == '\x0c' then "\\f"
  else if 32 ≤ c.toNat && c.toNat ≤ 126 then String.singleton c
  else "\\u" ++ hex4 c.toNat

/-- Escape of a whole string under `json.dumps` (characters at or beyond
0x10000, which would need surrogate pairs, do not occur in the data handled
here). -/
def pyJsonEscape (s : String) : String :=
  String.join (s.data.map jsonEscapeChar)

/-- Serialisation of the two-field error dict built at lines 119 and 129 of
`src/proxy-server.py` by `json.dumps` with default separators: the object
`\x7b"error": <err>, "message": <msg>\x7d` with insertion order preserved. -/
def errorBodyJson (err msg : String) : String :=
  "\x7b\"error\": \"" ++ pyJsonEscape err ++ "\", \"message\": \"" ++
    pyJsonEscape msg ++ "\"\x7d"

/-- Message of the `ValueError` raised by `int(content_length)` at line 70 of
`src/proxy-server.py` on a bad literal (the `repr` of the argument is modelled
for strings without quote or backslash characters, the case exercised here). -/
def intLiteralErrMsg (s : String) : String :=
  "invalid literal for int() with base 10: " ++ String.singleton '\x27' ++ s ++
    String.singleton '\x27'

/-- Inbound HTTP request as seen by the handler: `self.command`/the dispatch
method, `self.path` (the verbatim request target), `self.headers` in wire
order, and the readable request-body stream `self.rfile`. -/
structure InboundRequest where
  method : String
  path : String
  headers : List (String × String)
  rfile : String
deriving DecidableEq, Repr

/-- Outbound request handed to `urllib.request.urlopen`: target URL, method,
the header dict built by `req.add_header`, and the optional `data` payload. -/
structure OutboundRequest where
  url : String
  method : String
  headers : List (String × String)
  data : Option String
deriving DecidableEq, Repr

/-- Well-formed HTTP response produced by the origin server for the single
exchange: status code, reason phrase of the status line, headers in wire
order, body bytes. -/
structure OriginHTTPResponse where
  status : Nat
  reason : String
  headers : List (String × String)
  body : String
deriving DecidableEq, Repr

/-- Outcome of the call `urllib.request.urlopen(req, timeout=30)` at line 88
of `src/proxy-server.py` for this exchange: either the origin produced a
well-formed HTTP response, or the attempt failed at the transport level
(connection refused or reset, 30-second timeout exceeded, unparseable
response) with `str(e)` being the given description.  Redirect following by
`urllib` is not modelled; `response` is the final response of the exchange. -/
inductive OriginOutcome where
  | response (r : OriginHTTPResponse)
  | transportFailure (msg : String)
deriving DecidableEq, Repr

/-- Response the handler emits to the client: status, the header pairs the
handler code passes to `send_header` in call order, and the body written to
`wfile`. -/
structure ClientResponse where
  status : Nat
  headers : List (String × String)
  body : String
deriving DecidableEq, Repr

/-- Result of handling one inbound request: the emitted response, and the
outbound request issued to the origin (`none` when the origin was never
contacted). -/
structure ProxyResult where
  response : ClientResponse
  forwarded : Option OutboundRequest
deriving DecidableEq, Repr

/-- Fixed CORS header set sent by `add_cors_headers`
(lines 25-35 of `src/proxy-server.py`). -/
def corsHeaders : List (String × String) :=
  [("Access-Control-Allow-Origin", "*"),
   ("Access-Control-Allow-Methods", "GET, POST, PUT, DELETE, OPTIONS"),
   ("Access-Control-Allow-Headers", "Content-Type, Authorization, X-Requested-With"),
   ("Access-Control-Max-Age", "86400")]

/-- Synthesized JSON error response: `send_response(status)`,
`add_cors_headers()`, `send_header("Content-Type", "application/json")`, body
`json.dumps(\x7b"error": err, "message": msg\x7d)` (lines 114-120 and 124-130
of `src/proxy-server.py`). -/
def jsonErrorResponse (status : Nat) (err msg : String) : ClientResponse :=
  ⟨status, corsHeaders ++ [("Content-Type", "application/json")],
    errorBodyJson err msg⟩

/-- Relay of a 2xx origin response (lines 88-103 of `src/proxy-server.py`):
origin status, CORS headers, then every origin header whose lower-cased name
is not `transfer-encoding` or `connection`, then the origin body verbatim. -/
def successResponse (r : OriginHTTPResponse) : ClientResponse :=
  ⟨r.status,
    corsHeaders ++ r.headers.filter (fun p => !(isHopByHop p.1)),
    r.body⟩

/-- Branching of lines 88-130 of `src/proxy-server.py` on the outcome of
`urlopen`: a 2xx response is relayed by `successResponse`; a well-formed
non-2xx response makes `urlopen` raise `urllib.error.HTTPError`, handled at
lines 105-120 with status `e.code` and the synthesized body
`\x7b"error": "HTTP <code>", "message": str(e.reason)\x7d` (the origin body is
read at line 109 only to be printed, never relayed); every transport-level
failure lands in the generic handler at lines 122-130 as a 500. -/
def relayOrigin (origin : OriginOutcome) : ClientResponse :=
  match origin with
  | .response r =>
    if 200 ≤ r.status ∧ r.status < 300 then successResponse r
    else jsonErrorResponse r.status ("HTTP " ++ toString r.status) r.reason
  | .transportFailure msg => jsonErrorResponse 500 "Proxy Error" msg

/-- Forwarding step: the outbound request is built from the target URL, the
method, the header dict of lines 83-85, and the body data, then issued, and
the origin outcome is relayed. -/
def forwardAndRelay (url : String) (inb : InboundRequest)
    (origin : OriginOutcome) (data : Option String) : ProxyResult :=
  ⟨relayOrigin origin, some ⟨url, inb.method, buildOutboundHeaders inb.headers, data⟩⟩

/-- Model of `CORSProxyHandler.proxy_request` (lines 59-130 of
`src/proxy-server.py`).  The target URL is the f-string of line 63.  Lines
66-70: `content_length = self.headers.get("Content-Length")`; the body is read
only when that value is truthy (present and nonempty); a value `int` cannot
parse raises `ValueError` before any request is issued, which the generic
`except Exception` branch turns into a 500 `Proxy Error` response. -/
def proxyRequest (host : String) (port : Nat) (inb : InboundRequest)
    (origin : OriginOutcome) : ProxyResult :=
  match getHeaderCI inb.headers "Content-Length" with
  | none =>
    forwardAndRelay ("http://" ++ host ++ ":" ++ toString port ++ inb.path)
      inb origin none
  | some s =>
    if s = "" then
      forwardAndRelay ("http://" ++ host ++ ":" ++ toString port ++ inb.path)
        inb origin none
    else
      match pyParseInt s with
      | none => ⟨jsonErrorResponse 500 "Proxy Error" (intLiteralErrMsg s), none⟩
      | some n =>
        forwardAndRelay ("http://" ++ host ++ ":" ++ toString port ++ inb.path)
          inb origin (some (pyRead inb.rfile n))

/-- Dispatch of `CORSProxyHandler`: `do_OPTIONS` (lines 37-41) answers 200
with the CORS headers and an empty body without contacting the origin;
`do_GET`/`do_POST`/`do_PUT`/`do_DELETE` (lines 43-57) call `proxy_request`
with their method; any other method is answered by the
`BaseHTTPRequestHandler` machinery outside this model (`none`). -/
def handleRequest (host : String) (port : Nat) (inb : InboundRequest)
    (origin : OriginOutcome) : Option ProxyResult :=
  if inb.method = "OPTIONS" then
    some ⟨⟨200, corsHeaders, ""⟩, none⟩
  else if inb.method = "GET" ∨ inb.method = "POST" ∨ inb.method = "PUT" ∨
      inb.method = "DELETE" then
    some (proxyRequest host port inb origin)
  else
    none

/-- Message printed by `main` when `socketserver.TCPServer` raises `OSError`
at startup (lines 202-210 of `src/proxy-server.py`). -/
inductive BindFailureMsg where
  | portInUse (port : Nat)
  | generic (detail : String)
deriving DecidableEq, Repr

/-- Model of the `except OSError` branch of `main` (lines 202-210 of
`src/proxy-server.py`): the port-in-use message is printed exactly when the
error number equals the literal `48`; either way the process exits with
`sys.exit(1)`.  The pair is the chosen message and the exit code. -/
def bindFailureReport (port : Nat) (errnoVal : Nat) (detail : String) :
    BindFailureMsg × Nat :=
  if errnoVal = 48 then (.portInUse port, 1) else (.generic detail, 1)

/-- Errno value for "address already in use" on Linux
(`EADDRINUSE = 98` in `asm-generic/errno.h`); on macOS and the BSDs the same
condition is errno `48`. -/
def linuxEADDRINUSE : Nat := 98

/-- Spec-worded outbound header mapping, for the refinement comparison of
claim C4: "header mapping = InboundRequest's headers minus a small exclusion
set (`host`, `origin`, `referer` — case-insensitive match)", every other
header passed through with name and value unchanged. -/
def specOutboundHeaders (hs : List (String × String)) : List (String × String) :=
  hs.filter (fun p => !(excludedOutName p.1))

/-- Spec-worded client-facing header mapping of a relayed origin response, for
claim C7: "OriginResponse's headers minus hop-by-hop fields
(`transfer-encoding`, `connection`, case-insensitive) plus injected CORS
headers". -/
def specRelayedHeaders (originHeaders : List (String × String)) :
    List (String × String) :=
  corsHeaders ++ originHeaders.filter (fun p => !(isHopByHop p.1))

/-- Value stored under a key in a header dict (first entry with that exact
key; the dicts built by `addHeader` have unique keys). -/
def findVal : List (String × String) → String → Option String
  | [], _ => none
  | p :: t, k => if p.1 = k then some p.2 else findVal t k

/-- Value that the last non-excluded inbound header whose capitalized name is
`k` carries, scanning for the last occurrence: this is what a last-write-wins
dict retains. -/
def lastKept : List (String × String) → String → Option String
  | [], _ => none
  | q :: rest, k =>
    (lastKept rest k).or
      (if excludedOutName q.1 = false ∧ pyCapitalize q.1 = k then some q.2 else none)

/-- Test for an ASCII letter, the class of characters Python `str.title()`
case-maps in the ASCII strings handled here. -/
def asciiLetter (c : Char) : Prop :=
  (97 ≤ c.toNat ∧ c.toNat ≤ 122) ∨ (65 ≤ c.toNat ∧ c.toNat ≤ 90)

instance (c : Char) : Decidable (asciiLetter c) := by
  unfold asciiLetter
  infer_instance

/-- Worker of the `str.title()` model: `prevAlpha` records whether the
previous character was a letter; a letter following a non-letter (or starting
the string) is upper-cased, any other letter is lower-cased, and non-letters
pass through unchanged. -/
def pyTitleGo (prevAlpha : Bool) : List Char → List Char
  | [] => []
  | c :: cs =>
    if asciiLetter c then
      (if prevAlpha then c.toLower else c.toUpper) :: pyTitleGo true cs
    else
      c :: pyTitleGo false cs

/-- Model of Python `str.title()` for ASCII strings.
`urllib.request.AbstractHTTPHandler.do_open` applies this to every header name
of `req.headers` just before the request is serialised. -/
def pyTitle (s : String) : String :=
  ⟨pyTitleGo false s.data⟩

/-- Header mapping of the outbound request as the origin receives it: the
`req.headers` dict built by lines 83-85, with every name re-cased by
`str.title()` — the dict comprehension in `AbstractHTTPHandler.do_open` of
`urllib/request.py`.  The transport headers the handler adds on its own
(`Host`, `Connection: close`, ...) are the framework's additions, not
passthrough of inbound entries, and are outside this mapping. -/
def wireOutboundHeaders (hs : List (String × String)) : List (String × String) :=
  (buildOutboundHeaders hs).map (fun p => (pyTitle p.1, p.2))

/-- Value carried by the last non-excluded inbound header whose
`str.title()`-cased name is `k`, scanning for the last occurrence: what the
wire mapping retains under the name `k`. -/
def wireLastKept : List (String × String) → String → Option String
  | [], _ => none
  | q :: rest, k =>
    (wireLastKept rest k).or
      (if excludedOutName q.1 = false ∧ pyTitle q.1 = k then some q.2 else none)

theorem mem_addHeader {p : String × String} {hs : List (String × String)}
    {n v : String} (h : p ∈ addHeader hs n v) :
    p = (pyCapitalize n, v) ∨ p ∈ hs := by
  unfold addHeader at h
  by_cases ha : hs.any (fun q => q.1 == pyCapitalize n) = true
  · rw [if_pos ha] at h
    rcases List.mem_map.1 h with ⟨q, hq, rfl⟩
    by_cases hqk : q.1 = pyCapitalize n
    · rw [if_pos hqk]
      exact Or.inl rfl
    · rw [if_neg hqk]
      exact Or.inr hq
  · rw [if_neg ha] at h
    rcases List.mem_append.1 h with h2 | h2
    · exact Or.inr h2
    · exact Or.inl (List.mem_singleton.1 h2)

theorem addHeader_mem_self (hs : List (String × String)) (n v : String) :
    (pyCapitalize n, v) ∈ addHeader hs n v := by
  unfold addHeader
  by_cases ha : hs.any (fun q => q.1 == pyCapitalize n) = true
  · rw [if_pos ha]
    rcases List.any_eq_true.1 ha with ⟨q, hq, hq1⟩
    have hq1e : q.1 = pyCapitalize n := by simpa using hq1
    exact List.mem_map.2 ⟨q, hq, by rw [if_pos hq1e]⟩
  · rw [if_neg ha]
    exact List.mem_append.2 (Or.inr (List.mem_singleton.2 rfl))

theorem addHeader_preserves_key {hs : List (String × String)} {k w : String}
    (h : (k, w) ∈ hs) (n v : String) :
    ∃ u, (k, u) ∈ addHeader hs n v := by
  by_cases hk : k = pyCapitalize n
  · exact ⟨v, hk ▸ addHeader_mem_self hs n v⟩
  · unfold addHeader
    by_cases ha : hs.any (fun q => q.1 == pyCapitalize n) = true
    · rw [if_pos ha]
      exact ⟨w, List.mem_map.2 ⟨(k, w), h, by rw [if_neg hk]⟩⟩
    · rw [if_neg ha]
      exact ⟨w, List.mem_append.2 (Or.inl h)⟩

theorem findVal_append_last {t : List (String × String)} {key : String}
    (v : String) (h : ∀ x ∈ t, ¬ x.1 = key) :
    findVal (t ++ [(key, v)]) key = some v := by
  induction t with
  | nil => simp [findVal]
  | cons p t2 ih =>
    have hp : ¬ p.1 = key := h p (List.mem_cons_self p t2)
    simp only [List.cons_append, findVal, if_neg hp]
    exact ih fun x hx => h x (List.mem_cons_of_mem p hx)

theorem findVal_append_other {key k : String} (t : List (String × String))
    (v : String) (h : ¬ key = k) :
    findVal (t ++ [(key, v)]) k = findVal t k := by
  induction t with
  | nil => simp [findVal, if_neg h]
  | cons p t2 ih =>
    by_cases hp : p.1 = k
    · simp only [List.cons_append, findVal, if_pos hp]
    · simp only [List.cons_append, findVal, if_neg hp]
      exact ih

theorem findVal_map_replace_self {t : List (String × String)} {key : String}
    (v : String) (h : ∃ x ∈ t, x.1 = key) :
    findVal (t.map (fun p => if p.1 = key then (key, v) else p)) key = some v := by
  induction t with
  | nil => rcases h with ⟨x, hx, _⟩; exact absurd hx (List.not_mem_nil x)
  | cons p t2 ih =>
    by_cases hp : p.1 = key
    · simp [List.map_cons, if_pos hp, findVal]
    · simp only [List.map_cons, if_neg hp, findVal, if_neg hp]
      refine ih ?_
      rcases h with ⟨x, hx, hxk⟩
      rcases List.mem_cons.1 hx with rfl | hx2
      · exact absurd hxk hp
      · exact ⟨x, hx2, hxk⟩

theorem findVal_map_replace_other {key k : String} (t : List (String × String))
    (v : String) (h : ¬ k = key) :
    findVal (t.map (fun p => if p.1 = key then (key, v) else p)) k = findVal t k := by
  induction t with
  | nil => rfl
  | cons p t2 ih =>
    by_cases hp : p.1 = key
    · have h1 : ¬ key = k := fun he => h he.symm
      have h2 : ¬ p.1 = k := by rw [hp]; exact h1
      simp only [List.map_cons, if_pos hp, findVal, if_neg h1, if_neg h2]
      exact ih
    · by_cases hpk : p.1 = k
      · simp only [List.map_cons, if_neg hp, findVal, if_pos hpk]
      · simp only [List.map_cons, if_neg hp, findVal, if_neg hpk]
        exact ih

theorem findVal_addHeader (hs : List (String × String)) (n v k : String) :
    findVal (addHeader hs n v) k =
      if k = pyCapitalize n then some v else findVal hs k := by
  by_cases hk : k = pyCapitalize n
  · rw [if_pos hk, hk]
    unfold addHeader
    by_cases ha : hs.any (fun q => q.1 == pyCapitalize n) = true
    · rw [if_pos ha]
      refine findVal_map_replace_self v ?_
      rcases List.any_eq_true.1 ha with ⟨q, hq, hq1⟩
      exact ⟨q, hq, by simpa using hq1⟩
    · rw [if_neg ha]
      refine findVal_append_last v fun x hx hxk => ?_
      exact ha (List.any_eq_true.2 ⟨x, hx, by simpa using hxk⟩)
  · rw [if_neg hk]
    unfold addHeader
    by_cases ha : hs.any (fun q => q.1 == pyCapitalize n) = true
    · rw [if_pos ha]
      exact findVal_map_replace_other hs v hk
    · rw [if_neg ha]
      exact findVal_append_other hs v fun he => hk he.symm

theorem buildOut_cons (acc : List (String × String)) (q : String × String)
    (rest : List (String × String)) :
    buildOut acc (q :: rest) =
      if excludedOutName q.1 = true then buildOut acc rest
      else buildOut (addHeader acc q.1 q.2) rest := rfl

theorem lastKept_cons (q : String × String) (rest : List (String × String))
    (k : String) :
    lastKept (q :: rest) k = (lastKept rest k).or
      (if excludedOutName q.1 = false ∧ pyCapitalize q.1 = k then some q.2
        else none) := rfl

theorem mem_buildOut {p : String × String} :
    ∀ (hs acc : List (String × String)), p ∈ buildOut acc hs →
      p ∈ acc ∨ ∃ q ∈ hs, excludedOutName q.1 = false ∧ p = (pyCapitalize q.1, q.2) := by
  intro hs
  induction hs with
  | nil => intro acc h; exact Or.inl h
  | cons q rest ih =>
    intro acc h
    rw [buildOut_cons] at h
    by_cases hq : excludedOutName q.1 = true
    · rw [if_pos hq] at h
      rcases ih acc h with h2 | ⟨r, hr, hre, hrp⟩
      · exact Or.inl h2
      · exact Or.inr ⟨r, List.mem_cons_of_mem q hr, hre, hrp⟩
    · rw [if_neg hq] at h
      have hqf : excludedOutName q.1 = false := by
        cases he : excludedOutName q.1
        · rfl
        · exact absurd he hq
      rcases ih (addHeader acc q.1 q.2) h with h2 | ⟨r, hr, hre, hrp⟩
      · rcases mem_addHeader h2 with h3 | h3
        · exact Or.inr ⟨q, List.mem_cons_self q rest, hqf, h3⟩
        · exact Or.inl h3
      · exact Or.inr ⟨r, List.mem_cons_of_mem q hr, hre, hrp⟩

theorem buildOut_preserves_key {k : String} :
    ∀ (hs acc : List (String × String)), (∃ w, (k, w) ∈ acc) →
      ∃ u, (k, u) ∈ buildOut acc hs := by
  intro hs
  induction hs with
  | nil => intro acc h; exact h
  | cons q rest ih =>
    intro acc h
    rw [buildOut_cons]
    by_cases hq : excludedOutName q.1 = true
    · rw [if_pos hq]
      exact ih acc h
    · rw [if_neg hq]
      rcases h with ⟨w, hw⟩
      exact ih (addHeader acc q.1 q.2) (addHeader_preserves_key hw q.1 q.2)

theorem buildOut_key_of_mem {q : String × String} :
    ∀ (hs acc : List (String × String)), q ∈ hs → excludedOutName q.1 = false →
      ∃ u, (pyCapitalize q.1, u) ∈ buildOut acc hs := by
  intro hs
  induction hs with
  | nil => intro acc h _; exact absurd h (List.not_mem_nil q)
  | cons r rest ih =>
    intro acc h hq
    rw [buildOut_cons]
    rcases List.mem_cons.1 h with rfl | h2
    · rw [if_neg (by rw [hq]; exact Bool.false_ne_true)]
      exact buildOut_preserves_key rest _ ⟨q.2, addHeader_mem_self acc q.1 q.2⟩
    · by_cases hr : excludedOutName r.1 = true
      · rw [if_pos hr]
        exact ih acc h2 hq
      · rw [if_neg hr]
        exact ih (addHeader acc r.1 r.2) h2 hq

theorem findVal_buildOut :
    ∀ (hs acc : List (String × String)) (k : String),
      findVal (buildOut acc hs) k = (lastKept hs k).or (findVal acc k) := by
  intro hs
  induction hs with
  | nil => intro acc k; rfl
  | cons q rest ih =>
    intro acc k
    by_cases hq : excludedOutName q.1 = true
    · have hcond : ¬ (excludedOutName q.1 = false ∧ pyCapitalize q.1 = k) := by
        intro hc
        rw [hq] at hc
        exact Bool.noConfusion hc.1
      rw [buildOut_cons, if_pos hq, lastKept_cons, if_neg hcond, Option.or_none,
        ih acc k]
    · have hqf : excludedOutName q.1 = false := by
        cases he : excludedOutName q.1
        · rfl
        · exact absurd he hq
      rw [buildOut_cons, if_neg hq, ih (addHeader acc q.1 q.2) k, lastKept_cons,
        Option.or_assoc, findVal_addHeader]
      by_cases hk : k = pyCapitalize q.1
      · rw [if_pos hk, if_pos ⟨hqf, hk.symm⟩, Option.or_some]
      · have hc2 : ¬ (excludedOutName q.1 = false ∧ pyCapitalize q.1 = k) :=
          fun hc => hk hc.2.symm
        rw [if_neg hk, if_neg hc2, Option.none_or]

theorem keys_addHeader_nodup {hs : List (String × String)} (n v : String)
    (h : (hs.map Prod.fst).Nodup) :
    ((addHeader hs n v).map Prod.fst).Nodup := by
  unfold addHeader
  by_cases ha : hs.any (fun q => q.1 == pyCapitalize n) = true
  · rw [if_pos ha, List.map_map]
    have hfun : (Prod.fst ∘ fun p : String × String =>
        if p.1 = pyCapitalize n then (pyCapitalize n, v) else p) = Prod.fst := by
      funext p
      by_cases hp : p.1 = pyCapitalize n
      · simp [hp]
      · simp [hp]
    rw [hfun]
    exact h
  · rw [if_neg ha, List.map_append]
    have hnotin : pyCapitalize n ∉ hs.map Prod.fst := by
      intro hmem
      rcases List.mem_map.1 hmem with ⟨q, hq, hq1⟩
      exact ha (List.any_eq_true.2 ⟨q, hq, by simpa using hq1⟩)
    simp [List.nodup_append, h, hnotin]

theorem keys_buildOut_nodup :
    ∀ (hs acc : List (String × String)), (acc.map Prod.fst).Nodup →
      ((buildOut acc hs).map Prod.fst).Nodup := by
  intro hs
  induction hs with
  | nil => intro acc h; exact h
  | cons q rest ih =>
    intro acc h
    rw [buildOut_cons]
    by_cases hq : excludedOutName q.1 = true
    · rw [if_pos hq]
      exact ih acc h
    · rw [if_neg hq]
      exact ih (addHeader acc q.1 q.2) (keys_addHeader_nodup q.1 q.2 h)

/-- Equation view of `Char.toLower` exposing the `toNat` arithmetic. -/
theorem toLower_eq (c : Char) : c.toLower =
    if 65 ≤ c.toNat ∧ c.toNat ≤ 90 then Char.ofNat (c.toNat + 32) else c := rfl

theorem toUpper_eq (c : Char) : c.toUpper =
    if 97 ≤ c.toNat ∧ c.toNat ≤ 122 then Char.ofNat (c.toNat - 32) else c := rfl

theorem toNat_ofNat_valid {n : Nat} (h : n.isValidChar) :
    (Char.ofNat n).toNat = n := by
  rw [Char.ofNat, dif_pos h]
  rfl

theorem char_eq_of_toNat_eq {a b : Char} (h : a.toNat = b.toNat) : a = b := by
  rw [← Char.ofNat_toNat a, ← Char.ofNat_toNat b, h]

theorem toNat_toLower (c : Char) :
    c.toLower.toNat =
      if 65 ≤ c.toNat ∧ c.toNat ≤ 90 then c.toNat + 32 else c.toNat := by
  rw [toLower_eq]
  by_cases h : 65 ≤ c.toNat ∧ c.toNat ≤ 90
  · rw [if_pos h, if_pos h, toNat_ofNat_valid (Or.inl (by omega))]
  · rw [if_neg h, if_neg h]

theorem toNat_toUpper (c : Char) :
    c.toUpper.toNat =
      if 97 ≤ c.toNat ∧ c.toNat ≤ 122 then c.toNat - 32 else c.toNat := by
  rw [toUpper_eq]
  by_cases h : 97 ≤ c.toNat ∧ c.toNat ≤ 122
  · rw [if_pos h, if_pos h, toNat_ofNat_valid (Or.inl (by omega))]
  · rw [if_neg h, if_neg h]

theorem toLower_toUpper (c : Char) : c.toUpper.toLower = c.toLower := by
  apply char_eq_of_toNat_eq
  simp only [toNat_toLower, toNat_toUpper]
  split_ifs <;> omega

theorem toLower_toLower (c : Char) : c.toLower.toLower = c.toLower := by
  apply char_eq_of_toNat_eq
  simp only [toNat_toLower]
  split_ifs <;> omega

theorem toUpper_toUpper (c : Char) : c.toUpper.toUpper = c.toUpper := by
  apply char_eq_of_toNat_eq
  simp only [toNat_toUpper]
  split_ifs <;> omega

theorem toUpper_toLower (c : Char) : c.toLower.toUpper = c.toUpper := by
  apply char_eq_of_toNat_eq
  simp only [toNat_toLower, toNat_toUpper]
  split_ifs <;> omega

theorem asciiLetter_toLower (c : Char) : asciiLetter c.toLower ↔ asciiLetter c := by
  unfold asciiLetter
  rw [toNat_toLower]
  split_ifs <;> omega

theorem asciiLetter_toUpper (c : Char) : asciiLetter c.toUpper ↔ asciiLetter c := by
  unfold asciiLetter
  rw [toNat_toUpper]
  split_ifs <;> omega

theorem toLower_of_not_letter {c : Char} (h : ¬ asciiLetter c) : c.toLower = c := by
  apply char_eq_of_toNat_eq
  rw [toNat_toLower]
  unfold asciiLetter at h
  rw [if_neg (by omega)]

theorem toUpper_of_not_letter {c : Char} (h : ¬ asciiLetter c) : c.toUpper = c := by
  apply char_eq_of_toNat_eq
  rw [toNat_toUpper]
  unfold asciiLetter at h
  rw [if_neg (by omega)]

theorem pyTitleGo_cons (b : Bool) (c : Char) (cs : List Char) :
    pyTitleGo b (c :: cs) =
      if asciiLetter c then
        (if b then c.toLower else c.toUpper) :: pyTitleGo true cs
      else
        c :: pyTitleGo false cs := rfl

theorem pyTitleGo_map_toLower (cs : List Char) :
    ∀ b : Bool, pyTitleGo b (cs.map Char.toLower) = pyTitleGo b cs := by
  induction cs with
  | nil => intro b; rfl
  | cons c cs ih =>
    intro b
    rw [List.map_cons, pyTitleGo_cons, pyTitleGo_cons]
    by_cases h : asciiLetter c
    · rw [if_pos ((asciiLetter_toLower c).2 h), if_pos h, ih true]
      cases b with
      | false => rw [if_neg Bool.false_ne_true, if_neg Bool.false_ne_true,
          toUpper_toLower]
      | true => rw [if_pos rfl, if_pos rfl, toLower_toLower]
    · rw [if_neg (fun h2 => h ((asciiLetter_toLower c).1 h2)), if_neg h, ih false,
        toLower_of_not_letter h]

theorem pyTitle_pyCapitalize (s : String) : pyTitle (pyCapitalize s) = pyTitle s := by
  cases s with
  | mk l =>
    cases l with
    | nil => rfl
    | cons c cs =>
      show String.mk (pyTitleGo false (c.toUpper :: cs.map Char.toLower)) =
        String.mk (pyTitleGo false (c :: cs))
      rw [pyTitleGo_cons, pyTitleGo_cons]
      by_cases h : asciiLetter c
      · rw [if_pos ((asciiLetter_toUpper c).2 h), if_pos h, pyTitleGo_map_toLower,
          if_neg Bool.false_ne_true, if_neg Bool.false_ne_true, toUpper_toUpper]
      · rw [if_neg (fun h2 => h ((asciiLetter_toUpper c).1 h2)), if_neg h,
          pyTitleGo_map_toLower, toUpper_of_not_letter h]

theorem map_toLower_pyTitleGo (cs : List Char) :
    ∀ b : Bool, (pyTitleGo b cs).map Char.toLower = cs.map Char.toLower := by
  induction cs with
  | nil => intro b; rfl
  | cons c cs ih =>
    intro b
    rw [pyTitleGo_cons]
    by_cases h : asciiLetter c
    · rw [if_pos h, List.map_cons, List.map_cons, ih true]
      cases b with
      | false => rw [if_neg Bool.false_ne_true, toLower_toUpper]
      | true => rw [if_pos rfl, toLower_toLower]
    · rw [if_neg h, List.map_cons, List.map_cons, ih false]

theorem pyLower_pyTitle (s : String) : pyLower (pyTitle s) = pyLower s := by
  cases s with
  | mk l =>
    show String.mk ((pyTitleGo false l).map Char.toLower) =
      String.mk (l.map Char.toLower)
    rw [map_toLower_pyTitleGo]

theorem pyCapitalize_of_pyLower_eq {a b : String}
    (h : pyLower a = pyLower b) : pyCapitalize a = pyCapitalize b := by
  cases a with
  | mk la =>
    cases b with
    | mk lb =>
      have hl : la.map Char.toLower = lb.map Char.toLower := by
        have := congrArg String.data h
        exact this
      cases la with
      | nil =>
        cases lb with
        | nil => rfl
        | cons d ds => exact absurd hl (by simp)
      | cons c cs =>
        cases lb with
        | nil => exact absurd hl (by simp)
        | cons d ds =>
          rw [List.map_cons, List.map_cons] at hl
          have h1 : c.toLower = d.toLower := (List.cons.inj hl).1
          have h2 : cs.map Char.toLower = ds.map Char.toLower :=
            (List.cons.inj hl).2
          show String.mk (c.toUpper :: cs.map Char.toLower) =
            String.mk (d.toUpper :: ds.map Char.toLower)
          rw [h2, ← toUpper_toLower c, h1, toUpper_toLower]

theorem pyCapitalize_idem (s : String) :
    pyCapitalize (pyCapitalize s) = pyCapitalize s := by
  cases s with
  | mk l =>
    cases l with
    | nil => rfl
    | cons c cs =>
      show String.mk (c.toUpper.toUpper :: (cs.map Char.toLower).map Char.toLower) =
        String.mk (c.toUpper :: cs.map Char.toLower)
      rw [toUpper_toUpper, List.map_map]
      have hf : (Char.toLower ∘ Char.toLower) = Char.toLower := by
        funext d
        exact toLower_toLower d
      rw [hf]

theorem pyTitle_inj_of_capFixed {k1 k2 : String}
    (h1 : pyCapitalize k1 = k1) (h2 : pyCapitalize k2 = k2)
    (h : pyTitle k1 = pyTitle k2) : k1 = k2 := by
  have hlow : pyLower k1 = pyLower k2 := by
    rw [← pyLower_pyTitle k1, ← pyLower_pyTitle k2, h]
  rw [← h1, ← h2]
  exact pyCapitalize_of_pyLower_eq hlow

theorem wireLastKept_cons (q : String × String) (rest : List (String × String))
    (k : String) :
    wireLastKept (q :: rest) k = (wireLastKept rest k).or
      (if excludedOutName q.1 = false ∧ pyTitle q.1 = k then some q.2
        else none) := rfl

theorem wireLastKept_of_capFixed (hs : List (String × String)) {k : String}
    (hk : pyCapitalize k = k) :
    wireLastKept hs (pyTitle k) = lastKept hs k := by
  induction hs with
  | nil => rfl
  | cons q rest ih =>
    rw [wireLastKept_cons, lastKept_cons, ih]
    have hcond : (excludedOutName q.1 = false ∧ pyTitle q.1 = pyTitle k) ↔
        (excludedOutName q.1 = false ∧ pyCapitalize q.1 = k) := by
      constructor
      · rintro ⟨he, ht⟩
        refine ⟨he, ?_⟩
        have hlow : pyLower q.1 = pyLower k := by
          rw [← pyLower_pyTitle q.1, ← pyLower_pyTitle k, ht]
        rw [pyCapitalize_of_pyLower_eq hlow, hk]
      · rintro ⟨he, hc⟩
        refine ⟨he, ?_⟩
        rw [← pyTitle_pyCapitalize q.1, hc]
    by_cases h : excludedOutName q.1 = false ∧ pyCapitalize q.1 = k
    · rw [if_pos h, if_pos (hcond.2 h)]
    · rw [if_neg h, if_neg (fun h2 => h (hcond.1 h2))]

theorem findVal_of_mem_nodup {hs : List (String × String)} {k v : String}
    (hmem : (k, v) ∈ hs) (hnd : (hs.map Prod.fst).Nodup) :
    findVal hs k = some v := by
  induction hs with
  | nil => exact absurd hmem (List.not_mem_nil _)
  | cons p t ih =>
    rw [List.map_cons] at hnd
    rcases List.mem_cons.1 hmem with rfl | hmem2
    · show (if ((k, v) : String × String).1 = k then some ((k, v) : String × String).2
          else findVal t k) = some v
      rw [if_pos rfl]
    · have hk : ¬ p.1 = k := by
        intro he
        have hmt : k ∈ t.map Prod.fst := List.mem_map.2 ⟨(k, v), hmem2, rfl⟩
        rw [he] at hnd
        exact (List.nodup_cons.1 hnd).1 hmt
      show (if p.1 = k then some p.2 else findVal t k) = some v
      rw [if_neg hk]
      exact ih hmem2 (List.nodup_cons.1 hnd).2

theorem findVal_buildOutboundHeaders (hs : List (String × String)) (k : String) :
    findVal (buildOutboundHeaders hs) k = lastKept hs k := by
  unfold buildOutboundHeaders
  rw [findVal_buildOut hs [] k]
  show (lastKept hs k).or none = lastKept hs k
  exact Option.or_none

theorem capFixed_of_mem_build {hs : List (String × String)} {p : String × String}
    (hp : p ∈ buildOutboundHeaders hs) : pyCapitalize p.1 = p.1 := by
  rcases mem_buildOut hs [] hp with h | ⟨q, _, _, rfl⟩
  · exact absurd h (List.not_mem_nil p)
  · exact pyCapitalize_idem q.1

theorem wire_keys_nodup (hs : List (String × String)) :
    ((wireOutboundHeaders hs).map Prod.fst).Nodup := by
  unfold wireOutboundHeaders
  rw [List.map_map]
  have he : (Prod.fst ∘ fun p : String × String => (pyTitle p.1, p.2)) =
      ((fun k => pyTitle k) ∘ Prod.fst) := rfl
  rw [he, ← List.map_map]
  refine List.Nodup.map_on ?_ (keys_buildOut_nodup hs [] List.nodup_nil)
  intro x hx y hy hxy
  have hxf : pyCapitalize x = x := by
    rcases List.mem_map.1 hx with ⟨p, hp, rfl⟩
    exact capFixed_of_mem_build hp
  have hyf : pyCapitalize y = y := by
    rcases List.mem_map.1 hy with ⟨p, hp, rfl⟩
    exact capFixed_of_mem_build hp
  exact pyTitle_inj_of_capFixed hxf hyf hxy

theorem wire_entry_lastKept {hs : List (String × String)} {p : String × String}
    (hp : p ∈ wireOutboundHeaders hs) : wireLastKept hs p.1 = some p.2 := by
  rcases List.mem_map.1 hp with ⟨r, hr, rfl⟩
  show wireLastKept hs (pyTitle r.1) = some r.2
  rw [wireLastKept_of_capFixed hs (capFixed_of_mem_build hr),
    ← findVal_buildOutboundHeaders]
  exact findVal_of_mem_nodup hr (keys_buildOut_nodup hs [] List.nodup_nil)

theorem handleRequest_options {host : String} {port : Nat}
    {inb : InboundRequest} {origin : OriginOutcome}
    (hm : inb.method = "OPTIONS") :
    handleRequest host port inb origin = some ⟨⟨200, corsHeaders, ""⟩, none⟩ := by
  unfold handleRequest
  rw [if_pos hm]

theorem handleRequest_proxies {host : String} {port : Nat}
    {inb : InboundRequest} {origin : OriginOutcome}
    (hm : inb.method = "GET" ∨ inb.method = "POST" ∨ inb.method = "PUT" ∨
      inb.method = "DELETE") :
    handleRequest host port inb origin = some (proxyRequest host port inb origin) := by
  have hno : ¬ inb.method = "OPTIONS" := by
    rcases hm with h | h | h | h <;> rw [h] <;> decide
  unfold handleRequest
  rw [if_neg hno, if_pos hm]

theorem handleRequest_cases {host : String} {port : Nat}
    {inb : InboundRequest} {origin : OriginOutcome} {res : ProxyResult}
    (h : handleRequest host port inb origin = some res) :
    res = ⟨⟨200, corsHeaders, ""⟩, none⟩ ∨
      res = proxyRequest host port inb origin := by
  unfold handleRequest at h
  by_cases h1 : inb.method = "OPTIONS"
  · rw [if_pos h1] at h
    exact Or.inl (Option.some.inj h).symm
  · rw [if_neg h1] at h
    by_cases h2 : inb.method = "GET" ∨ inb.method = "POST" ∨
        inb.method = "PUT" ∨ inb.method = "DELETE"
    · rw [if_pos h2] at h
      exact Or.inr (Option.some.inj h).symm
    · rw [if_neg h2] at h
      exact Option.noConfusion h

theorem proxyRequest_eq_nolen {inb : InboundRequest} (host : String) (port : Nat)
    (origin : OriginOutcome)
    (hcl : getHeaderCI inb.headers "Content-Length" = none) :
    proxyRequest host port inb origin =
      forwardAndRelay ("http://" ++ host ++ ":" ++ toString port ++ inb.path)
        inb origin none := by
  unfold proxyRequest
  rw [hcl]

theorem proxyRequest_eq_emptylen {inb : InboundRequest} (host : String) (port : Nat)
    (origin : OriginOutcome)
    (hcl : getHeaderCI inb.headers "Content-Length" = some "") :
    proxyRequest host port inb origin =
      forwardAndRelay ("http://" ++ host ++ ":" ++ toString port ++ inb.path)
        inb origin none := by
  unfold proxyRequest
  rw [hcl]
  simp

theorem proxyRequest_eq_badlen {inb : InboundRequest} {s : String} (host : String)
    (port : Nat) (origin : OriginOutcome)
    (hcl : getHeaderCI inb.headers "Content-Length" = some s) (hs : ¬ s = "")
    (hpi : pyParseInt s = none) :
    proxyRequest host port inb origin =
      ⟨jsonErrorResponse 500 "Proxy Error" (intLiteralErrMsg s), none⟩ := by
  unfold proxyRequest
  rw [hcl]
  simp [hs, hpi]

theorem proxyRequest_eq_body {inb : InboundRequest} {s : String} {n : Int}
    (host : String) (port : Nat) (origin : OriginOutcome)
    (hcl : getHeaderCI inb.headers "Content-Length" = some s) (hs : ¬ s = "")
    (hpi : pyParseInt s = some n) :
    proxyRequest host port inb origin =
      forwardAndRelay ("http://" ++ host ++ ":" ++ toString port ++ inb.path)
        inb origin (some (pyRead inb.rfile n)) := by
  unfold proxyRequest
  rw [hcl]
  simp [hs, hpi]

theorem proxyRequest_forwarded {host : String} {port : Nat}
    {inb : InboundRequest} {origin : OriginOutcome} {out : OutboundRequest}
    (hf : (proxyRequest host port inb origin).forwarded = some out) :
    (proxyRequest host port inb origin).response = relayOrigin origin ∧
      out.url = "http://" ++ host ++ ":" ++ toString port ++ inb.path ∧
      out.method = inb.method ∧
      out.headers = buildOutboundHeaders inb.headers := by
  cases hcl : getHeaderCI inb.headers "Content-Length" with
  | none =>
    rw [proxyRequest_eq_nolen host port origin hcl] at hf ⊢
    simp only [forwardAndRelay, Option.some.injEq] at hf
    subst hf
    exact ⟨rfl, rfl, rfl, rfl⟩
  | some s =>
    by_cases hs : s = ""
    · subst hs
      rw [proxyRequest_eq_emptylen host port origin hcl] at hf ⊢
      simp only [forwardAndRelay, Option.some.injEq] at hf
      subst hf
      exact ⟨rfl, rfl, rfl, rfl⟩
    · cases hpi : pyParseInt s with
      | none =>
        rw [proxyRequest_eq_badlen host port origin hcl hs hpi] at hf
        exact Option.noConfusion hf
      | some n =>
        rw [proxyRequest_eq_body host port origin hcl hs hpi] at hf ⊢
        simp only [forwardAndRelay, Option.some.injEq] at hf
        subst hf
        exact ⟨rfl, rfl, rfl, rfl⟩

theorem relayOrigin_response (r : OriginHTTPResponse) :
    relayOrigin (OriginOutcome.response r) =
      if 200 ≤ r.status ∧ r.status < 300 then successResponse r
      else jsonErrorResponse r.status ("HTTP " ++ toString r.status) r.reason := rfl

theorem relayOrigin_transport (msg : String) :
    relayOrigin (OriginOutcome.transportFailure msg) =
      jsonErrorResponse 500 "Proxy Error" msg := rfl

theorem relayOrigin_headers_cors (origin : OriginOutcome) :
    ∃ t, (relayOrigin origin).headers = corsHeaders ++ t := by
  cases origin with
  | response r =>
    rw [relayOrigin_response]
    by_cases h2 : 200 ≤ r.status ∧ r.status < 300
    · rw [if_pos h2]
      exact ⟨_, rfl⟩
    · rw [if_neg h2]
      exact ⟨_, rfl⟩
  | transportFailure msg =>
    rw [relayOrigin_transport]
    exact ⟨_, rfl⟩

theorem proxyRequest_headers_cors (host : String) (port : Nat)
    (inb : InboundRequest) (origin : OriginOutcome) :
    ∃ t, (proxyRequest host port inb origin).response.headers = corsHeaders ++ t := by
  cases hcl : getHeaderCI inb.headers "Content-Length" with
  | none =>
    rw [proxyRequest_eq_nolen host port origin hcl]
    exact relayOrigin_headers_cors origin
  | some s =>
    by_cases hs : s = ""
    · subst hs
      rw [proxyRequest_eq_emptylen host port origin hcl]
      exact relayOrigin_headers_cors origin
    · cases hpi : pyParseInt s with
      | none =>
        rw [proxyRequest_eq_badlen host port origin hcl hs hpi]
        exact ⟨_, rfl⟩
      | some n =>
        rw [proxyRequest_eq_body host port origin hcl hs hpi]
        exact relayOrigin_headers_cors origin

/-- C1: for every response the proxy emits — a successful relay, an origin
HTTP error, a transport error, or a preflight answer — the four CORS headers
(`Access-Control-Allow-Origin: *`,
`Access-Control-Allow-Methods: GET, POST, PUT, DELETE, OPTIONS`,
`Access-Control-Allow-Headers: Content-Type, Authorization, X-Requested-With`,
`Access-Control-Max-Age: 86400`) are present with exactly those fixed
values. -/
theorem C1_cors_headers_always_present (host : String) (port : Nat)
    (inb : InboundRequest) (origin : OriginOutcome) (res : ProxyResult)
    (h : handleRequest host port inb origin = some res) :
    ("Access-Control-Allow-Origin", "*") ∈ res.response.headers ∧
    ("Access-Control-Allow-Methods", "GET, POST, PUT, DELETE, OPTIONS") ∈
      res.response.headers ∧
    ("Access-Control-Allow-Headers",
      "Content-Type, Authorization, X-Requested-With") ∈ res.response.headers ∧
    ("Access-Control-Max-Age", "86400") ∈ res.response.headers := by
  have hd : ∃ t, res.response.headers = corsHeaders ++ t := by
    rcases handleRequest_cases h with rfl | rfl
    · exact ⟨[], by simp⟩
    · exact proxyRequest_headers_cors host port inb origin
  rcases hd with ⟨t, ht⟩
  rw [ht]
  refine ⟨?_, ?_, ?_, ?_⟩ <;> exact List.mem_append_left t (by decide)

/-- C1 witness: the CORS set is present on a concrete transport-failure
response. -/
theorem C1_cors_headers_witness :
    ("Access-Control-Allow-Origin", "*") ∈
      (proxyRequest "localhost" 8000 ⟨"GET", "/", [], ""⟩
        (OriginOutcome.transportFailure "down")).response.headers ∧
    ("Access-Control-Allow-Methods", "GET, POST, PUT, DELETE, OPTIONS") ∈
      (proxyRequest "localhost" 8000 ⟨"GET", "/", [], ""⟩
        (OriginOutcome.transportFailure "down")).response.headers ∧
    ("Access-Control-Allow-Headers",
      "Content-Type, Authorization, X-Requested-With") ∈
      (proxyRequest "localhost" 8000 ⟨"GET", "/", [], ""⟩
        (OriginOutcome.transportFailure "down")).response.headers ∧
    ("Access-Control-Max-Age", "86400") ∈
      (proxyRequest "localhost" 8000 ⟨"GET", "/", [], ""⟩
        (OriginOutcome.transportFailure "down")).response.headers :=
  C1_cors_headers_always_present "localhost" 8000 ⟨"GET", "/", [], ""⟩
    (OriginOutcome.transportFailure "down")
    (proxyRequest "localhost" 8000 ⟨"GET", "/", [], ""⟩
      (OriginOutcome.transportFailure "down")) rfl

/-- C2 counterexample: the origin answers 404 with body
`\x7b"detail":"not found"\x7d`, but the client receives the synthesized body
`\x7b"error": "HTTP 404", "message": "Not Found"\x7d` instead of the origin
body — the claim that the origin body is propagated verbatim is false. -/
theorem C2_counterexample_404_body_not_propagated :
    (handleRequest "localhost" 8000 ⟨"GET", "/api/v1/x", [], ""⟩
        (OriginOutcome.response ⟨404, "Not Found", [],
          "\x7b\"detail\":\"not found\"\x7d"⟩)).map
      (fun r => (r.response.status, r.response.body)) =
      some (404, "\x7b\"error\": \"HTTP 404\", \"message\": \"Not Found\"\x7d") ∧
    "\x7b\"error\": \"HTTP 404\", \"message\": \"Not Found\"\x7d" ≠
      "\x7b\"detail\":\"not found\"\x7d" :=
  ⟨by decide, by decide⟩

/-- C2 amended: for every forwarded request whose origin returns a well-formed
non-2xx response, the client receives the origin status code, with CORS
headers and `Content-Type: application/json`, and the synthesized body
`\x7b"error": "HTTP <code>", "message": <reason phrase>\x7d`; the origin body
is read only for logging and discarded. -/
theorem C2_origin_error_synthesized_body (host : String) (port : Nat)
    (inb : InboundRequest) (r : OriginHTTPResponse) (res : ProxyResult)
    (out : OutboundRequest)
    (h : handleRequest host port inb (OriginOutcome.response r) = some res)
    (hf : res.forwarded = some out)
    (hnot2xx : ¬ (200 ≤ r.status ∧ r.status < 300)) :
    res.response.status = r.status ∧
    res.response.body = errorBodyJson ("HTTP " ++ toString r.status) r.reason ∧
    ("Content-Type", "application/json") ∈ res.response.headers := by
  rcases handleRequest_cases h with rfl | rfl
  · exact Option.noConfusion hf
  · have hp := proxyRequest_forwarded hf
    rw [hp.1, relayOrigin_response, if_neg hnot2xx]
    exact ⟨rfl, rfl, List.mem_append_right corsHeaders (by decide)⟩

/-- C2 amended witness: concrete 404 exchange. -/
theorem C2_origin_error_witness :
    (proxyRequest "localhost" 8000 ⟨"GET", "/api/v1/x", [], ""⟩
        (OriginOutcome.response ⟨404, "Not Found", [],
          "\x7b\"detail\":\"not found\"\x7d"⟩)).response.status = 404 ∧
    (proxyRequest "localhost" 8000 ⟨"GET", "/api/v1/x", [], ""⟩
        (OriginOutcome.response ⟨404, "Not Found", [],
          "\x7b\"detail\":\"not found\"\x7d"⟩)).response.body =
      errorBodyJson ("HTTP " ++ toString (404 : Nat)) "Not Found" ∧
    ("Content-Type", "application/json") ∈
      (proxyRequest "localhost" 8000 ⟨"GET", "/api/v1/x", [], ""⟩
        (OriginOutcome.response ⟨404, "Not Found", [],
          "\x7b\"detail\":\"not found\"\x7d"⟩)).response.headers :=
  C2_origin_error_synthesized_body "localhost" 8000 ⟨"GET", "/api/v1/x", [], ""⟩
    ⟨404, "Not Found", [], "\x7b\"detail\":\"not found\"\x7d"⟩
    (proxyRequest "localhost" 8000 ⟨"GET", "/api/v1/x", [], ""⟩
      (OriginOutcome.response ⟨404, "Not Found", [],
        "\x7b\"detail\":\"not found\"\x7d"⟩))
    ⟨"http://localhost:8000/api/v1/x", "GET", [], none⟩ rfl rfl (by decide)

/-- C3: every inbound OPTIONS request, regardless of path, headers, or body,
is answered with status 200 and an empty body, and no request is issued to
the origin server. -/
theorem C3_options_short_circuit (host : String) (port : Nat)
    (inb : InboundRequest) (origin : OriginOutcome)
    (hm : inb.method = "OPTIONS") :
    handleRequest host port inb origin = some ⟨⟨200, corsHeaders, ""⟩, none⟩ :=
  handleRequest_options hm

/-- C3 witness: a concrete OPTIONS request with headers and a body, against an
unreachable origin, still yields 200 / empty body / no forwarding. -/
theorem C3_options_witness :
    handleRequest "localhost" 8000
        ⟨"OPTIONS", "/api/v1/collections", [("Origin", "http://e.example")], "b"⟩
        (OriginOutcome.transportFailure "connection refused") =
      some ⟨⟨200, corsHeaders, ""⟩, none⟩ :=
  C3_options_short_circuit "localhost" 8000
    ⟨"OPTIONS", "/api/v1/collections", [("Origin", "http://e.example")], "b"⟩
    (OriginOutcome.transportFailure "connection refused") rfl

/-- C5: for every forwarded request the outbound target URL is exactly
`http://\x7btarget_host\x7d:\x7btarget_port\x7d\x7bpath\x7d` with the
path+query passed through verbatim and the method preserved, and on a 2xx
origin response the client receives the origin status code and an identical
body. -/
theorem C5_transparent_forwarding :
    (∀ (host : String) (port : Nat) (inb : InboundRequest)
        (origin : OriginOutcome) (res : ProxyResult) (out : OutboundRequest),
      handleRequest host port inb origin = some res →
      res.forwarded = some out →
      out.url = "http://" ++ host ++ ":" ++ toString port ++ inb.path ∧
        out.method = inb.method) ∧
    (∀ (host : String) (port : Nat) (inb : InboundRequest)
        (r : OriginHTTPResponse) (res : ProxyResult) (out : OutboundRequest),
      handleRequest host port inb (OriginOutcome.response r) = some res →
      res.forwarded = some out →
      200 ≤ r.status → r.status < 300 →
      res.response.status = r.status ∧ res.response.body = r.body) := by
  constructor
  · intro host port inb origin res out h hf
    rcases handleRequest_cases h with rfl | rfl
    · exact Option.noConfusion hf
    · have hp := proxyRequest_forwarded hf
      exact ⟨hp.2.1, hp.2.2.1⟩
  · intro host port inb r res out h hf h1 h2
    rcases handleRequest_cases h with rfl | rfl
    · exact Option.noConfusion hf
    · have hp := proxyRequest_forwarded hf
      rw [hp.1, relayOrigin_response, if_pos ⟨h1, h2⟩]
      exact ⟨rfl, rfl⟩

/-- C5 witness: a GET to `/api/v1/collections?limit=10` is forwarded to that
exact URL, and a 200 origin response with body `\x7b"items":[]\x7d` is
relayed with status 200 and identical body. -/
theorem C5_transparent_forwarding_witness :
    ((⟨"http://localhost:8000/api/v1/collections?limit=10", "GET", [], none⟩ :
        OutboundRequest).url =
      "http://" ++ "localhost" ++ ":" ++ toString (8000 : Nat) ++
        (⟨"GET", "/api/v1/collections?limit=10", [], ""⟩ : InboundRequest).path ∧
      (⟨"http://localhost:8000/api/v1/collections?limit=10", "GET", [], none⟩ :
        OutboundRequest).method =
        (⟨"GET", "/api/v1/collections?limit=10", [], ""⟩ : InboundRequest).method) ∧
    ((proxyRequest "localhost" 8000
        ⟨"GET", "/api/v1/collections?limit=10", [], ""⟩
        (OriginOutcome.response ⟨200, "OK", [],
          "\x7b\"items\":[]\x7d"⟩)).response.status = 200 ∧
      (proxyRequest "localhost" 8000
        ⟨"GET", "/api/v1/collections?limit=10", [], ""⟩
        (OriginOutcome.response ⟨200, "OK", [],
          "\x7b\"items\":[]\x7d"⟩)).response.body = "\x7b\"items\":[]\x7d") :=
  ⟨C5_transparent_forwarding.1 "localhost" 8000
      ⟨"GET", "/api/v1/collections?limit=10", [], ""⟩
      (OriginOutcome.response ⟨200, "OK", [], "\x7b\"items\":[]\x7d"⟩)
      (proxyRequest "localhost" 8000
        ⟨"GET", "/api/v1/collections?limit=10", [], ""⟩
        (OriginOutcome.response ⟨200, "OK", [], "\x7b\"items\":[]\x7d"⟩))
      ⟨"http://localhost:8000/api/v1/collections?limit=10", "GET", [], none⟩
      rfl rfl,
   C5_transparent_forwarding.2 "localhost" 8000
      ⟨"GET", "/api/v1/collections?limit=10", [], ""⟩
      ⟨200, "OK", [], "\x7b\"items\":[]\x7d"⟩
      (proxyRequest "localhost" 8000
        ⟨"GET", "/api/v1/collections?limit=10", [], ""⟩
        (OriginOutcome.response ⟨200, "OK", [], "\x7b\"items\":[]\x7d"⟩))
      ⟨"http://localhost:8000/api/v1/collections?limit=10", "GET", [], none⟩
      rfl rfl (by decide) (by decide)⟩

/-- C6: every forwarding attempt that fails at the transport level yields a
500 response with `Content-Type: application/json` and body exactly
`\x7b"error": "Proxy Error", "message": <description>\x7d`, with the CORS
headers present; no fault escapes without a response. -/
theorem C6_transport_failure_mapping (host : String) (port : Nat)
    (inb : InboundRequest) (msg : String) (res : ProxyResult)
    (out : OutboundRequest)
    (h : handleRequest host port inb (OriginOutcome.transportFailure msg) = some res)
    (hf : res.forwarded = some out) :
    res.response.status = 500 ∧
    res.response.headers = corsHeaders ++ [("Content-Type", "application/json")] ∧
    res.response.body = errorBodyJson "Proxy Error" msg := by
  rcases handleRequest_cases h with rfl | rfl
  · exact Option.noConfusion hf
  · have hp := proxyRequest_forwarded hf
    rw [hp.1, relayOrigin_transport]
    exact ⟨rfl, rfl, rfl⟩

/-- C6 witness: a concrete refused connection. -/
theorem C6_transport_failure_witness :
    (proxyRequest "localhost" 8000 ⟨"GET", "/api/v1/heartbeat", [], ""⟩
        (OriginOutcome.transportFailure
          "<urlopen error [Errno 111] Connection refused>")).response.status = 500 ∧
    (proxyRequest "localhost" 8000 ⟨"GET", "/api/v1/heartbeat", [], ""⟩
        (OriginOutcome.transportFailure
          "<urlopen error [Errno 111] Connection refused>")).response.headers =
      corsHeaders ++ [("Content-Type", "application/json")] ∧
    (proxyRequest "localhost" 8000 ⟨"GET", "/api/v1/heartbeat", [], ""⟩
        (OriginOutcome.transportFailure
          "<urlopen error [Errno 111] Connection refused>")).response.body =
      errorBodyJson "Proxy Error" "<urlopen error [Errno 111] Connection refused>" :=
  C6_transport_failure_mapping "localhost" 8000 ⟨"GET", "/api/v1/heartbeat", [], ""⟩
    "<urlopen error [Errno 111] Connection refused>"
    (proxyRequest "localhost" 8000 ⟨"GET", "/api/v1/heartbeat", [], ""⟩
      (OriginOutcome.transportFailure
        "<urlopen error [Errno 111] Connection refused>"))
    ⟨"http://localhost:8000/api/v1/heartbeat", "GET", [], none⟩ rfl rfl

/-- C7: for every successfully relayed origin response, the client-facing
header sequence equals the origin headers minus the case-insensitive
`transfer-encoding`/`connection` entries plus the injected CORS headers (all
other origin headers relayed unchanged), and no emitted header has a
hop-by-hop name. -/
theorem C7_hop_by_hop_stripping (host : String) (port : Nat)
    (inb : InboundRequest) (r : OriginHTTPResponse) (res : ProxyResult)
    (out : OutboundRequest)
    (h : handleRequest host port inb (OriginOutcome.response r) = some res)
    (hf : res.forwarded = some out)
    (h1 : 200 ≤ r.status) (h2 : r.status < 300) :
    res.response.headers = specRelayedHeaders r.headers ∧
    res.response.headers.all (fun p => !(isHopByHop p.1)) = true := by
  rcases handleRequest_cases h with rfl | rfl
  · exact Option.noConfusion hf
  · have hp := proxyRequest_forwarded hf
    rw [hp.1, relayOrigin_response, if_pos ⟨h1, h2⟩]
    constructor
    · rfl
    · rw [List.all_eq_true]
      intro p hp2
      rcases List.mem_append.1 hp2 with hc | hfil
      · have hcors : ∀ x ∈ corsHeaders, (!(isHopByHop x.1)) = true := by decide
        exact hcors p hc
      · exact (List.mem_filter.1 hfil).2

/-- C7 witness: an origin `Transfer-Encoding: chunked` header is stripped
while `X-Served-By` is relayed. -/
theorem C7_hop_by_hop_witness :
    (proxyRequest "localhost" 8000 ⟨"GET", "/ok", [], ""⟩
        (OriginOutcome.response ⟨200, "OK",
          [("Transfer-Encoding", "chunked"), ("X-Served-By", "chroma")],
          "ok"⟩)).response.headers =
      specRelayedHeaders
        [("Transfer-Encoding", "chunked"), ("X-Served-By", "chroma")] ∧
    ((proxyRequest "localhost" 8000 ⟨"GET", "/ok", [], ""⟩
        (OriginOutcome.response ⟨200, "OK",
          [("Transfer-Encoding", "chunked"), ("X-Served-By", "chroma")],
          "ok"⟩)).response.headers.all (fun p => !(isHopByHop p.1))) = true :=
  C7_hop_by_hop_stripping "localhost" 8000 ⟨"GET", "/ok", [], ""⟩
    ⟨200, "OK", [("Transfer-Encoding", "chunked"), ("X-Served-By", "chroma")], "ok"⟩
    (proxyRequest "localhost" 8000 ⟨"GET", "/ok", [], ""⟩
      (OriginOutcome.response ⟨200, "OK",
        [("Transfer-Encoding", "chunked"), ("X-Served-By", "chroma")], "ok"⟩))
    ⟨"http://localhost:8000/ok", "GET", [], none⟩ rfl rfl (by decide) (by decide)

/-- C9: the startup handler does exit with code 1 on any bind failure, but it
distinguishes the port-in-use case by comparing `errno` with the literal 48,
which is `EADDRINUSE` only on macOS/BSD.  On Linux, where `EADDRINUSE` is 98,
a port-in-use bind failure produces the generic message, so the required
distinction is not made there; with errno 48 the specific message appears. -/
theorem C9_bind_errno_divergence :
    bindFailureReport 5001 linuxEADDRINUSE "[Errno 98] Address already in use" =
      (BindFailureMsg.generic "[Errno 98] Address already in use", 1) ∧
    bindFailureReport 5001 48 "[Errno 48] Address already in use" =
      (BindFailureMsg.portInUse 5001, 1) :=
  ⟨by decide, by decide⟩

/-- C10 counterexample: a present `Content-Length` header whose value is the
empty string is not a valid decimal integer, yet the request is forwarded
(Python truthiness skips the body read entirely) and the client receives the
origin 200, not the claimed 500. -/
theorem C10_counterexample_empty_content_length :
    pyParseInt "" = none ∧
    (handleRequest "localhost" 8000
        ⟨"POST", "/p", [("Content-Length", "")], "HELLO"⟩
        (OriginOutcome.response ⟨200, "OK", [], "ok"⟩)).map
      (fun r => (r.response.status, r.forwarded.isSome)) = some (200, true) :=
  ⟨by decide, by decide⟩

/-- C10 amended: for every inbound non-OPTIONS request whose `Content-Length`
value is nonempty and not parseable by Python `int`, the request is never
forwarded and the client receives 500 with the `Proxy Error` JSON body; an
empty value is treated like an absent header and the request is forwarded. -/
theorem C10_invalid_content_length_amended (host : String) (port : Nat)
    (inb : InboundRequest) (origin : OriginOutcome) (s : String)
    (hm : inb.method = "GET" ∨ inb.method = "POST" ∨ inb.method = "PUT" ∨
      inb.method = "DELETE")
    (hcl : getHeaderCI inb.headers "Content-Length" = some s)
    (hne : ¬ s = "") (hbad : pyParseInt s = none) :
    handleRequest host port inb origin =
      some ⟨jsonErrorResponse 500 "Proxy Error" (intLiteralErrMsg s), none⟩ := by
  rw [handleRequest_proxies hm, proxyRequest_eq_badlen host port origin hcl hne hbad]

/-- C10 amended witness: `Content-Length: abc` yields the 500 Proxy Error
without forwarding. -/
theorem C10_invalid_content_length_witness :
    handleRequest "localhost" 8000
        ⟨"POST", "/p", [("Content-Length", "abc")], "HELLO"⟩
        (OriginOutcome.response ⟨200, "OK", [], "ok"⟩) =
      some ⟨jsonErrorResponse 500 "Proxy Error" (intLiteralErrMsg "abc"), none⟩ :=
  C10_invalid_content_length_amended "localhost" 8000
    ⟨"POST", "/p", [("Content-Length", "abc")], "HELLO"⟩
    (OriginOutcome.response ⟨200, "OK", [], "ok"⟩) "abc"
    (Or.inr (Or.inl rfl)) (by decide) (by decide) (by decide)
